import Mathlib

/-!
Verification of the strax-tutorial workflow (`working_with_strax.py`).

The repository is a linear tutorial script: it builds a straxen analysis
context, runs a few discovery queries (`search_field`, `data_info`,
`select_runs`), binds one run identifier, retrieves a dataframe with
`get_df`, renders a manual scatter plot with logarithmic axes, and finally
calls the built-in `event_scatter` plot.  All heavy lifting is done by the
external strax/straxen/pandas/matplotlib packages; those externals are
modelled here from the specification, while the script itself (which calls
happen, in which order, with which arguments, and with no error handling)
is embedded faithfully from the source.
-/

abbrev RunId := String
abbrev DataTypeName := String
abbrev FieldName := String
abbrev PluginName := String

/-- Errors an external call can raise (missing dependency, unknown run,
unknown data type, missing column, unbound python name). -/
inductive Err where
  | dependencyAbsent : Err
  | runUnknown : RunId → Err
  | dataTypeUnknown : DataTypeName → Err
  | columnMissing : String → Err
  | nameMissing : Err
deriving DecidableEq, Repr

/-- One field of a data type's schema: a name and a data kind. -/
structure FieldInfo where
  field : FieldName
  kind : String
deriving DecidableEq, Repr

/-- Descriptor of one data type: its name, providing plugin and schema. -/
structure DataTypeInfo where
  name : DataTypeName
  plugin : PluginName
  fields : List FieldInfo
deriving DecidableEq, Repr

/-- Modelled from the spec: the backing data known to a strax context —
the enumerable data types with their schemas, the available run
identifiers, and the event rows for each (run, data type) pair.  The real
storage backend lives in the external strax package and is out of scope. -/
structure StraxData where
  dataTypes : List DataTypeInfo
  runs : List RunId
  cells : List (RunId × DataTypeName × List (List Int))
deriving DecidableEq, Repr

/-- Modelled from the spec: the opaque configuration object ("context")
binding the workflow to one detector/campaign's data. -/
structure Context where
  straxData : StraxData
deriving DecidableEq, Repr

/-- A result table: named columns, one row of values per detected event. -/
structure Table where
  columns : List FieldName
  rows : List (List Int)
deriving DecidableEq, Repr

def StraxData.findType (sd : StraxData) (d : DataTypeName) : Option DataTypeInfo :=
  sd.dataTypes.find? (fun i => i.name == d)

def StraxData.cellsOf (sd : StraxData) (r : RunId) (d : DataTypeName) : List (List Int) :=
  match sd.cells.find? (fun e => e.1 == r && e.2.1 == d) with
  | some e => e.2.2
  | none => []

/-- Does the character list `pat` occur as a contiguous segment of `l`? -/
def listHasSeg (pat : List Char) : List Char → Bool
  | [] => pat.isEmpty
  | a :: t => pat.isPrefixOf (a :: t) || listHasSeg pat t

/-- Does `sub` occur as a substring of `s`? -/
def strHasSeg (s sub : String) : Bool :=
  listHasSeg sub.data s.data

/-- Modelled from the spec: `search_field(substring)` returns the
data-type names whose schema includes a field matching the substring,
with the providing plugin for each.  The real implementation lives in the
external strax package. -/
def Context.search_field (st : Context) (sub : String) : List (DataTypeName × PluginName) :=
  (st.straxData.dataTypes.filter (fun i => i.fields.any (fun f => strHasSeg f.field sub))).map
    (fun i => (i.name, i.plugin))

/-- Modelled from the spec: `data_info(data_type)` returns the full field
schema (field names and data kinds) of the named data type.  The real
implementation lives in the external strax package. -/
def Context.data_info (st : Context) (d : DataTypeName) : List FieldInfo :=
  match st.straxData.findType d with
  | some i => i.fields
  | none => []

/-- Modelled from the spec: `select_runs()` returns the enumerable set of
available run identifiers known to the context.  The real implementation
lives in the external strax package. -/
def Context.select_runs (st : Context) : List RunId :=
  st.straxData.runs

/-- Modelled from the spec: `get_df(run_id, data_type)` returns a result
table whose columns are the named fields of the data type's schema, or
fails when the run identifier or the data-type name is unknown to the
context.  The real implementation lives in the external strax package. -/
def Context.get_df (st : Context) (r : RunId) (d : DataTypeName) : Except Err Table :=
  if st.straxData.runs.contains r then
    match st.straxData.findType d with
    | some i => .ok { columns := i.fields.map (fun f => f.field), rows := st.straxData.cellsOf r d }
    | none => .error (.dataTypeUnknown d)
  else .error (.runUnknown r)

/-- Modelled from the spec: `event_scatter(run_id)` performs the same
retrieval as `get_df(run_id, "event_info")` internally and plots the
result; its underlying data is that retrieved table.  The derived
energy axes and color dimension belong to the external collaborator and
are not reproduced. -/
def Context.event_scatter (st : Context) (r : RunId) : Except Err Table :=
  st.get_df r "event_info"

/-- State-passing form of `event_scatter`: the call is stateless, so the
context comes back unchanged alongside the result. -/
def Context.event_scatter_s (st : Context) (r : RunId) : Except Err Table × Context :=
  (st.event_scatter r, st)

/-- Modelled from the spec: the set of installed campaign configurations;
context construction fails when the package providing the requested
campaign is absent. -/
abbrev Installed := List (String × StraxData)

/-- Modelled from the spec: `straxen.contexts.xenon1t_dali()` constructs
the analysis context for the fixed XENON1T campaign from the installed
configuration, failing when that configuration is absent. -/
def xenon1t_dali (inst : Installed) : Except Err Context :=
  match inst.find? (fun e => e.1 == "xenon1t_dali") with
  | some e => .ok { straxData := e.2 }
  | none => .error .dependencyAbsent

/-- State-passing form of context construction: the call does not modify
the installed configuration. -/
def xenon1t_dali_s (inst : Installed) : Except Err Context × Installed :=
  (xenon1t_dali inst, inst)

/-- Modelled from the spec: the state of a matplotlib figure — plot kind,
the two plotted columns, axis scales, and axis limits (`none` meaning
unbounded / automatic). -/
structure PlotState where
  kind : String
  xcol : String
  ycol : String
  xscale : String
  yscale : String
  xlim : Option Int × Option Int
  ylim : Option Int × Option Int
deriving DecidableEq, Repr

/-- Modelled from the spec: `df.plot.scatter(x, y)` renders a scatter
plot of two named columns of the table, with linear axes and automatic
limits; it fails when either column is absent from the table. -/
def Table.plot_scatter (df : Table) (x y : String) : Except Err PlotState :=
  if df.columns.contains x then
    if df.columns.contains y then
      .ok { kind := "scatter", xcol := x, ycol := y, xscale := "linear", yscale := "linear",
            xlim := (none, none), ylim := (none, none) }
    else .error (.columnMissing y)
  else .error (.columnMissing x)

/-- Modelled from the spec: `plt.xscale(v)` sets the x-axis scale. -/
def plt.xscale (p : PlotState) (v : String) : PlotState :=
  { p with xscale := v }

/-- Modelled from the spec: `plt.yscale(v)` sets the y-axis scale. -/
def plt.yscale (p : PlotState) (v : String) : PlotState :=
  { p with yscale := v }

/-- Modelled from the spec: `plt.xlim(lo, hi)` sets the x-axis limits;
`none` leaves the corresponding bound unbounded / automatic. -/
def plt.xlim (p : PlotState) (lo hi : Option Int) : PlotState :=
  { p with xlim := (lo, hi) }

/-- The manual plotting step of the script, lines 138–141 of the source:
`df.plot.scatter('cs1', 'cs2')`, then `plt.xscale('log')`,
`plt.xlim(1, None)`, `plt.yscale('log')`. -/
def manual_plot (df : Table) : Except Err PlotState :=
  match df.plot_scatter "cs1" "cs2" with
  | .error e => .error e
  | .ok p => .ok (plt.yscale (plt.xlim (plt.xscale p "log") (some 1) none) "log")

/-- The signature of the external calls the script makes.  The workflow
only invokes these; their behaviour is left abstract here so that
properties of the script hold for every behaviour of the external
collaborator. -/
structure Externals where
  xenon1t_dali : Except Err Context
  search_field : Context → String → Except Err (List (DataTypeName × PluginName))
  data_info : Context → DataTypeName → Except Err (List FieldInfo)
  select_runs : Context → Except Err (List RunId)
  get_df : Context → RunId → DataTypeName → Except Err Table
  event_scatter : Context → RunId → Except Err Table

/-- The externals realised by the spec-modelled strax operations over an
installed configuration. -/
def specExternals (inst : Installed) : Externals where
  xenon1t_dali := xenon1t_dali inst
  search_field := fun c sub => .ok (c.search_field sub)
  data_info := fun c d => .ok (c.data_info d)
  select_runs := fun c => .ok c.select_runs
  get_df := fun c r d => c.get_df r d
  event_scatter := fun c r => c.event_scatter r

/-- One statement of the script, in source order semantics: external calls
take their literal arguments from the source; `getDf` and `eventScatter`
read the run identifier from the `run_id` variable, as the source does. -/
inductive Stmt where
  | mkContext : Stmt
  | searchField : String → Stmt
  | dataInfo : DataTypeName → Stmt
  | selectRuns : Stmt
  | assignRunId : RunId → Stmt
  | getDf : DataTypeName → Stmt
  | printDf : Stmt
  | plotScatter : String → String → Stmt
  | setXscale : String → Stmt
  | setXlim : Option Int → Option Int → Stmt
  | setYscale : String → Stmt
  | eventScatter : Stmt
deriving DecidableEq, Repr

/-- A record of one external call made by the interpreter, with the
arguments it was given. -/
inductive ExtCall where
  | ctxCall : ExtCall
  | searchCall : String → ExtCall
  | infoCall : DataTypeName → ExtCall
  | runsCall : ExtCall
  | dfCall : RunId → DataTypeName → ExtCall
  | scatterCall : RunId → ExtCall
deriving DecidableEq, Repr

/-- The interpreter's session state: the python variables the script binds
(`st`, `run_id`, `df`, the current matplotlib figure) and a log of the
external calls made so far. -/
structure Sess where
  ctx : Option Context
  run_id : Option RunId
  df : Option Table
  plot : Option PlotState
  callLog : List ExtCall
deriving DecidableEq, Repr

def initSess : Sess :=
  { ctx := none, run_id := none, df := none, plot := none, callLog := [] }

/-- Execute one statement of the script.  An external call that fails
surfaces its error unchanged; a statement that reads an unbound variable
fails with `nameMissing` (python's NameError). -/
def execStmt (ext : Externals) (s : Sess) : Stmt → Except Err Sess
  | .mkContext =>
      match ext.xenon1t_dali with
      | .error e => .error e
      | .ok c => .ok { s with ctx := some c, callLog := s.callLog ++ [.ctxCall] }
  | .searchField sub =>
      match s.ctx with
      | none => .error .nameMissing
      | some c =>
          match ext.search_field c sub with
          | .error e => .error e
          | .ok _ => .ok { s with callLog := s.callLog ++ [.searchCall sub] }
  | .dataInfo d =>
      match s.ctx with
      | none => .error .nameMissing
      | some c =>
          match ext.data_info c d with
          | .error e => .error e
          | .ok _ => .ok { s with callLog := s.callLog ++ [.infoCall d] }
  | .selectRuns =>
      match s.ctx with
      | none => .error .nameMissing
      | some c =>
          match ext.select_runs c with
          | .error e => .error e
          | .ok _ => .ok { s with callLog := s.callLog ++ [.runsCall] }
  | .assignRunId r => .ok { s with run_id := some r }
  | .getDf d =>
      match s.ctx, s.run_id with
      | some c, some r =>
          match ext.get_df c r d with
          | .error e => .error e
          | .ok t => .ok { s with df := some t, callLog := s.callLog ++ [.dfCall r d] }
      | _, _ => .error .nameMissing
  | .printDf =>
      match s.df with
      | none => .error .nameMissing
      | some _ => .ok s
  | .plotScatter x y =>
      match s.df with
      | none => .error .nameMissing
      | some df =>
          match df.plot_scatter x y with
          | .error e => .error e
          | .ok p => .ok { s with plot := some p }
  | .setXscale v =>
      match s.plot with
      | none => .error .nameMissing
      | some p => .ok { s with plot := some (plt.xscale p v) }
  | .setXlim lo hi =>
      match s.plot with
      | none => .error .nameMissing
      | some p => .ok { s with plot := some (plt.xlim p lo hi) }
  | .setYscale v =>
      match s.plot with
      | none => .error .nameMissing
      | some p => .ok { s with plot := some (plt.yscale p v) }
  | .eventScatter =>
      match s.ctx, s.run_id with
      | some c, some r =>
          match ext.event_scatter c r with
          | .error e => .error e
          | .ok _ => .ok { s with callLog := s.callLog ++ [.scatterCall r] }
      | _, _ => .error .nameMissing

/-- Execute a list of statements in order, stopping at the first error. -/
def runStmts (ext : Externals) (s : Sess) : List Stmt → Except Err Sess
  | [] => .ok s
  | stmt :: rest =>
      match execStmt ext s stmt with
      | .error e => .error e
      | .ok s' => runStmts ext s' rest

/-- The script of `working_with_strax.py`, statement by statement in
source order (lines 64, 80, 88, 94, 102, 110, 118, 126, 138–141, 149). -/
def script : List Stmt :=
  [ .mkContext,
    .searchField "cs1",
    .dataInfo "corrected_areas",
    .dataInfo "event_info",
    .selectRuns,
    .assignRunId "180215_1029",
    .getDf "event_info",
    .printDf,
    .plotScatter "cs1" "cs2",
    .setXscale "log",
    .setXlim (some 1) none,
    .setYscale "log",
    .eventScatter ]

/-- Run the first `n` statements of the script from the initial state. -/
def runPrefixN (ext : Externals) (n : Nat) : Except Err Sess :=
  runStmts ext initSess (script.take n)

/-- Run the whole script from the initial state. -/
def runScript (ext : Externals) : Except Err Sess :=
  runStmts ext initSess script

/-- The logical phase of a statement: 0 = context selection,
1 = discovery, 2 = retrieval and visualization. -/
def Stmt.phase : Stmt → Nat
  | .mkContext => 0
  | .searchField _ => 1
  | .dataInfo _ => 1
  | .selectRuns => 1
  | _ => 2

/-- Is the statement one of the discovery operations? -/
def Stmt.isDiscovery : Stmt → Bool
  | .searchField _ => true
  | .dataInfo _ => true
  | .selectRuns => true
  | _ => false

/-- Is the statement an assignment to the `run_id` variable? -/
def Stmt.isAssign : Stmt → Bool
  | .assignRunId _ => true
  | _ => false

/-- Is the logged call a `get_df` call? -/
def ExtCall.isDf : ExtCall → Bool
  | .dfCall _ _ => true
  | _ => false

/-- Is the logged call an `event_scatter` call? -/
def ExtCall.isScatter : ExtCall → Bool
  | .scatterCall _ => true
  | _ => false

/-- A small concrete strax configuration used to exercise the theorems on
concrete inputs: the two data types the tutorial discovers, one run, and
a few event rows. -/
def sampleData : StraxData :=
  { dataTypes :=
      [ { name := "corrected_areas", plugin := "CorrectedAreas",
          fields := [⟨"cs1", "float32"⟩, ⟨"cs2", "float32"⟩] },
        { name := "event_info", plugin := "EventInfo",
          fields := [⟨"time", "int64"⟩, ⟨"cs1", "float32"⟩,
                     ⟨"cs2", "float32"⟩, ⟨"drift_time", "float32"⟩] } ],
    runs := ["180215_1029"],
    cells :=
      [ ("180215_1029", "event_info", [[0, 10, 200, 7], [1, 20, 800, 9]]),
        ("180215_1029", "corrected_areas", [[10, 200], [20, 800]]) ] }

/-- A concrete installed configuration providing the XENON1T campaign. -/
def sampleInstall : Installed := [("xenon1t_dali", sampleData)]

/-- The concrete externals realised by the sample configuration. -/
def sampleExt : Externals := specExternals sampleInstall

instance {ε α : Type} [DecidableEq ε] [DecidableEq α] : DecidableEq (Except ε α) := fun x y =>
  match x, y with
  | .ok a, .ok b =>
      if h : a = b then .isTrue (by rw [h])
      else .isFalse (fun hh => h (Except.ok.inj hh))
  | .error a, .error b =>
      if h : a = b then .isTrue (by rw [h])
      else .isFalse (fun hh => h (Except.error.inj hh))
  | .ok _, .error _ => .isFalse (fun hh => Except.noConfusion hh)
  | .error _, .ok _ => .isFalse (fun hh => Except.noConfusion hh)

/-- The session state reached by running the whole script over the sample
externals. -/
def sampleFinal : Sess :=
  { ctx := some { straxData := sampleData },
    run_id := some "180215_1029",
    df := some { columns := ["time", "cs1", "cs2", "drift_time"],
                 rows := [[0, 10, 200, 7], [1, 20, 800, 9]] },
    plot := some { kind := "scatter", xcol := "cs1", ycol := "cs2",
                   xscale := "log", yscale := "log",
                   xlim := (some 1, none), ylim := (none, none) },
    callLog := [.ctxCall, .searchCall "cs1", .infoCall "corrected_areas",
                .infoCall "event_info", .runsCall,
                .dfCall "180215_1029" "event_info", .scatterCall "180215_1029"] }

/-- The session state reached after the first two statements of the script
over the sample externals. -/
def sampleAfter2 : Sess :=
  { ctx := some { straxData := sampleData },
    run_id := none, df := none, plot := none,
    callLog := [.ctxCall, .searchCall "cs1"] }

/-- C1: given the column names "cs1" and "cs2" of the retrieved table, the
manual plotting step produces a scatter plot of those two columns whose
x-axis and y-axis are both logarithmic and whose x-axis is lower-bounded
at 1 with no upper bound. -/
theorem manual_plot_log_axes (df : Table)
    (h1 : df.columns.contains "cs1" = true) (h2 : df.columns.contains "cs2" = true) :
    ∃ p, manual_plot df = .ok p ∧ p.kind = "scatter" ∧ p.xcol = "cs1" ∧ p.ycol = "cs2" ∧
      p.xscale = "log" ∧ p.yscale = "log" ∧ p.xlim = (some 1, none) := by
  simp only [manual_plot, Table.plot_scatter, h1, h2, if_true]
  exact ⟨_, rfl, rfl, rfl, rfl, rfl, rfl, rfl⟩

/-- Witness for C1 on a concrete two-column table. -/
theorem manual_plot_log_axes_witness :
    ∃ p, manual_plot { columns := ["cs1", "cs2"], rows := [[10, 200]] } = .ok p ∧
      p.kind = "scatter" ∧ p.xcol = "cs1" ∧ p.ycol = "cs2" ∧
      p.xscale = "log" ∧ p.yscale = "log" ∧ p.xlim = (some 1, none) :=
  manual_plot_log_axes { columns := ["cs1", "cs2"], rows := [[10, 200]] }
    (by decide) (by decide)

/-- C3: running `event_scatter` twice on the same run identifier, threading
the context state through the first call, yields identical underlying
data, and the first call leaves the context unchanged. -/
theorem event_scatter_deterministic (st : Context) (r : RunId) :
    (st.event_scatter_s r).1 = ((st.event_scatter_s r).2.event_scatter_s r).1 ∧
    (st.event_scatter_s r).2 = st :=
  ⟨rfl, rfl⟩

/-- C4: whenever `get_df` succeeds, every field reported by `data_info`
for the same data type is among the returned table's columns. -/
theorem get_df_columns_superset (st : Context) (r : RunId) (d : DataTypeName) (t : Table)
    (h : st.get_df r d = .ok t) :
    (st.data_info d).all (fun fi => t.columns.contains fi.field) = true := by
  unfold Context.get_df at h
  split at h
  · cases hf : st.straxData.findType d with
    | none => rw [hf] at h; exact absurd h (by simp)
    | some i =>
        rw [hf] at h
        simp only [Except.ok.injEq] at h
        subst h
        unfold Context.data_info
        rw [hf]
        simp only [List.all_eq_true]
        intro fi hfi
        exact List.elem_iff.mpr (List.mem_map_of_mem _ hfi)
  · exact absurd h (by simp)

/-- Witness for C4 on the sample context, run and data type. -/
theorem get_df_columns_superset_witness :
    ((Context.mk sampleData).data_info "event_info").all
      (fun fi => (Table.mk ["time", "cs1", "cs2", "drift_time"]
        [[0, 10, 200, 7], [1, 20, 800, 9]]).columns.contains fi.field) = true :=
  get_df_columns_superset (Context.mk sampleData) "180215_1029" "event_info"
    (Table.mk ["time", "cs1", "cs2", "drift_time"] [[0, 10, 200, 7], [1, 20, 800, 9]])
    (by decide)

/-- C5: requesting a run identifier or data-type name unknown to the
context makes `get_df` fail rather than return any table. -/
theorem get_df_invalid_raises (st : Context) (r : RunId) (d : DataTypeName)
    (h : st.straxData.runs.contains r = false ∨ st.straxData.findType d = none) :
    (st.get_df r d).isOk = false := by
  unfold Context.get_df
  rcases h with h | h
  · rw [h]
    rfl
  · cases hc : st.straxData.runs.contains r
    · rfl
    · simp only [if_true]
      rw [h]
      rfl

/-- Witness for C5: a run identifier absent from the sample context. -/
theorem get_df_invalid_raises_witness :
    ((Context.mk sampleData).get_df "190101_0000" "event_info").isOk = false :=
  get_df_invalid_raises (Context.mk sampleData) "190101_0000" "event_info"
    (Or.inl (by decide))

/-- C8: when the campaign configuration is installed, context construction
returns a non-null context, and a repeated call on the state left by the
first call returns the same context (idempotence). -/
theorem xenon1t_dali_idempotent (inst : Installed) (p : String × StraxData)
    (h : inst.find? (fun e => e.1 == "xenon1t_dali") = some p) :
    (xenon1t_dali_s inst).1 = .ok { straxData := p.2 } ∧
    (xenon1t_dali_s (xenon1t_dali_s inst).2).1 = (xenon1t_dali_s inst).1 := by
  constructor
  · simp [xenon1t_dali_s, xenon1t_dali, h]
  · rfl

/-- Witness for C8 on the sample installed configuration. -/
theorem xenon1t_dali_idempotent_witness :
    (xenon1t_dali_s sampleInstall).1 = .ok { straxData := sampleData } ∧
    (xenon1t_dali_s (xenon1t_dali_s sampleInstall).2).1 = (xenon1t_dali_s sampleInstall).1 :=
  xenon1t_dali_idempotent sampleInstall ("xenon1t_dali", sampleData) (by decide)

/-- Running a concatenation of statement lists: the second list only runs
when the first one succeeded, and a failure of the first list is the
failure of the whole. -/
theorem runStmts_append (ext : Externals) (l1 l2 : List Stmt) (s : Sess) :
    runStmts ext s (l1 ++ l2) =
      match runStmts ext s l1 with
      | .error e => .error e
      | .ok s' => runStmts ext s' l2 := by
  induction l1 generalizing s with
  | nil => rfl
  | cons a t ih =>
      simp only [List.cons_append, runStmts]
      cases execStmt ext s a with
      | error e => rfl
      | ok s' => exact ih s'

/-- C2: the workflow has no error handling — if running the first `n`
statements of the script fails with error `e`, then running any longer
prefix (in particular the whole script) still fails with exactly `e`:
the failure of an external call terminates the session at that point and
propagates unmodified, with no catch, retry or translation. -/
theorem error_propagates_unhandled (ext : Externals) (n m : Nat) (e : Err)
    (hnm : n ≤ m) (h : runPrefixN ext n = .error e) :
    runPrefixN ext m = .error e := by
  unfold runPrefixN at h ⊢
  rw [show m = n + (m - n) by omega, List.take_add, runStmts_append, h]

/-- Witness for C2: with no installed configuration, context construction
fails and the whole script fails with that same error. -/
theorem error_propagates_unhandled_witness :
    runPrefixN (specExternals []) 13 = .error .dependencyAbsent :=
  error_propagates_unhandled (specExternals []) 1 13 .dependencyAbsent
    (by decide) (by decide)

/-- C6: a discovery statement (`search_field`, `data_info`,
`select_runs`) that executes successfully leaves every piece of workflow
state — the context and the `run_id`, `df` and plot variables —
unchanged: the call is purely informational. -/
theorem discovery_no_side_effects (ext : Externals) (s s' : Sess) (stmt : Stmt)
    (hd : stmt.isDiscovery = true) (h : execStmt ext s stmt = .ok s') :
    s'.ctx = s.ctx ∧ s'.run_id = s.run_id ∧ s'.df = s.df ∧ s'.plot = s.plot := by
  cases stmt with
  | searchField sub =>
      simp only [execStmt] at h
      split at h
      · exact absurd h (by simp)
      · split at h
        · exact absurd h (by simp)
        · simp only [Except.ok.injEq] at h
          subst h
          exact ⟨rfl, rfl, rfl, rfl⟩
  | dataInfo d =>
      simp only [execStmt] at h
      split at h
      · exact absurd h (by simp)
      · split at h
        · exact absurd h (by simp)
        · simp only [Except.ok.injEq] at h
          subst h
          exact ⟨rfl, rfl, rfl, rfl⟩
  | selectRuns =>
      simp only [execStmt] at h
      split at h
      · exact absurd h (by simp)
      · split at h
        · exact absurd h (by simp)
        · simp only [Except.ok.injEq] at h
          subst h
          exact ⟨rfl, rfl, rfl, rfl⟩
  | mkContext => exact Bool.noConfusion hd
  | assignRunId r => exact Bool.noConfusion hd
  | getDf d => exact Bool.noConfusion hd
  | printDf => exact Bool.noConfusion hd
  | plotScatter x y => exact Bool.noConfusion hd
  | setXscale v => exact Bool.noConfusion hd
  | setXlim lo hi => exact Bool.noConfusion hd
  | setYscale v => exact Bool.noConfusion hd
  | eventScatter => exact Bool.noConfusion hd

/-- Witness for C6: `select_runs` on a session holding the sample context
changes nothing but the call log. -/
theorem discovery_no_side_effects_witness :
    Sess.ctx { initSess with ctx := some (Context.mk sampleData), callLog := [.runsCall] } =
      Sess.ctx { initSess with ctx := some (Context.mk sampleData) } ∧
    Sess.run_id { initSess with ctx := some (Context.mk sampleData), callLog := [.runsCall] } =
      Sess.run_id { initSess with ctx := some (Context.mk sampleData) } ∧
    Sess.df { initSess with ctx := some (Context.mk sampleData), callLog := [.runsCall] } =
      Sess.df { initSess with ctx := some (Context.mk sampleData) } ∧
    Sess.plot { initSess with ctx := some (Context.mk sampleData), callLog := [.runsCall] } =
      Sess.plot { initSess with ctx := some (Context.mk sampleData) } :=
  discovery_no_side_effects sampleExt { initSess with ctx := some (Context.mk sampleData) }
    { initSess with ctx := some (Context.mk sampleData), callLog := [.runsCall] }
    .selectRuns (by decide) (by decide)

/-- The statements of the script after the context construction. -/
def scriptTail : List Stmt :=
  [ .searchField "cs1",
    .dataInfo "corrected_areas",
    .dataInfo "event_info",
    .selectRuns,
    .assignRunId "180215_1029",
    .getDf "event_info",
    .printDf,
    .plotScatter "cs1" "cs2",
    .setXscale "log",
    .setXlim (some 1) none,
    .setYscale "log",
    .eventScatter ]

/-- Executing any statement other than the context construction leaves the
`st` variable untouched. -/
theorem execStmt_preserves_ctx (ext : Externals) (s : Sess) (stmt : Stmt) (s' : Sess)
    (hc : stmt ≠ Stmt.mkContext) (h : execStmt ext s stmt = .ok s') :
    s'.ctx = s.ctx := by
  cases stmt with
  | mkContext => exact absurd rfl hc
  | assignRunId r =>
      simp only [execStmt, Except.ok.injEq] at h
      subst h
      rfl
  | printDf =>
      simp only [execStmt] at h
      split at h
      · exact absurd h (by simp)
      · simp only [Except.ok.injEq] at h
        subst h
        rfl
  | getDf d =>
      simp only [execStmt] at h
      split at h
      · split at h
        · exact absurd h (by simp)
        · simp only [Except.ok.injEq] at h
          subst h
          rfl
      · exact absurd h (by simp)
  | eventScatter =>
      simp only [execStmt] at h
      split at h
      · split at h
        · exact absurd h (by simp)
        · simp only [Except.ok.injEq] at h
          subst h
          rfl
      · exact absurd h (by simp)
  | plotScatter x y =>
      simp only [execStmt] at h
      split at h
      · exact absurd h (by simp)
      · split at h
        · exact absurd h (by simp)
        · simp only [Except.ok.injEq] at h
          subst h
          rfl
  | searchField sub =>
      simp only [execStmt] at h
      split at h
      · exact absurd h (by simp)
      · split at h
        · exact absurd h (by simp)
        · simp only [Except.ok.injEq] at h
          subst h
          rfl
  | dataInfo d =>
      simp only [execStmt] at h
      split at h
      · exact absurd h (by simp)
      · split at h
        · exact absurd h (by simp)
        · simp only [Except.ok.injEq] at h
          subst h
          rfl
  | selectRuns =>
      simp only [execStmt] at h
      split at h
      · exact absurd h (by simp)
      · split at h
        · exact absurd h (by simp)
        · simp only [Except.ok.injEq] at h
          subst h
          rfl
  | setXscale v =>
      simp only [execStmt] at h
      split at h
      · exact absurd h (by simp)
      · simp only [Except.ok.injEq] at h
        subst h
        rfl
  | setXlim lo hi =>
      simp only [execStmt] at h
      split at h
      · exact absurd h (by simp)
      · simp only [Except.ok.injEq] at h
        subst h
        rfl
  | setYscale v =>
      simp only [execStmt] at h
      split at h
      · exact absurd h (by simp)
      · simp only [Except.ok.injEq] at h
        subst h
        rfl

/-- Running any list of statements that contains no context construction
leaves the `st` variable untouched. -/
theorem runStmts_preserves_ctx (ext : Externals) (l : List Stmt) (s s' : Sess)
    (hl : ∀ x ∈ l, x ≠ Stmt.mkContext) (h : runStmts ext s l = .ok s') :
    s'.ctx = s.ctx := by
  induction l generalizing s with
  | nil =>
      simp only [runStmts, Except.ok.injEq] at h
      subst h
      rfl
  | cons a t ih =>
      simp only [runStmts] at h
      cases he : execStmt ext s a with
      | error e => rw [he] at h; exact absurd h (by simp)
      | ok s1 =>
          rw [he] at h
          have h1 : s1.ctx = s.ctx :=
            execStmt_preserves_ctx ext s a s1 (hl a (List.mem_cons_self a t)) he
          have h2 : s'.ctx = s1.ctx :=
            ih s1 (fun x hx => hl x (List.mem_cons_of_mem a hx)) h
          rw [h2, h1]

/-- C7: the context is created exactly once, by the first statement of the
script, and is never mutated or replaced afterwards: whenever context
construction returns `c`, the `st` variable of every state reachable by
running a nonempty prefix of the script still holds exactly `c`. -/
theorem context_immutable (ext : Externals) (c : Context) (n : Nat) (s : Sess)
    (hc : ext.xenon1t_dali = .ok c) (hn : 1 ≤ n) (h : runPrefixN ext n = .ok s) :
    s.ctx = some c := by
  obtain ⟨k, rfl⟩ : ∃ k, n = k + 1 := ⟨n - 1, by omega⟩
  unfold runPrefixN at h
  rw [show script = Stmt.mkContext :: scriptTail from rfl, List.take_succ_cons] at h
  simp only [runStmts, execStmt, hc] at h
  have htail : ∀ x ∈ scriptTail.take k, x ≠ Stmt.mkContext := by
    intro x hx
    have hmem : x ∈ scriptTail := List.take_subset k scriptTail hx
    have hall : ∀ y ∈ scriptTail, y ≠ Stmt.mkContext := by decide
    exact hall x hmem
  have := runStmts_preserves_ctx ext (scriptTail.take k)
    { initSess with ctx := some c, callLog := initSess.callLog ++ [ExtCall.ctxCall] } s htail h
  rw [this]

/-- Witness for C7: after the first two statements over the sample
externals, the `st` variable still holds the constructed sample context. -/
theorem context_immutable_witness : sampleAfter2.ctx = some (Context.mk sampleData) :=
  context_immutable sampleExt (Context.mk sampleData) 2 sampleAfter2
    (by decide) (by decide) (by decide)

/-- Any successful run of the whole script makes exactly the external
calls of the source, in source order, with the source's arguments. -/
theorem runScript_ok_log (ext : Externals) (s : Sess) (h : runScript ext = .ok s) :
    s.callLog = [ExtCall.ctxCall, .searchCall "cs1", .infoCall "corrected_areas",
      .infoCall "event_info", .runsCall, .dfCall "180215_1029" "event_info",
      .scatterCall "180215_1029"] := by
  unfold runScript at h
  rw [show script = Stmt.mkContext :: scriptTail from rfl] at h
  simp only [runStmts, execStmt] at h
  cases h1 : ext.xenon1t_dali with
  | error e => rw [h1] at h; exact absurd h (by simp)
  | ok c =>
  rw [h1] at h
  simp only [scriptTail, runStmts, execStmt] at h
  cases h2 : ext.search_field c "cs1" with
  | error e => rw [h2] at h; exact absurd h (by simp)
  | ok v2 =>
  rw [h2] at h
  simp only [runStmts, execStmt] at h
  cases h3 : ext.data_info c "corrected_areas" with
  | error e => rw [h3] at h; exact absurd h (by simp)
  | ok v3 =>
  rw [h3] at h
  simp only [runStmts, execStmt] at h
  cases h4 : ext.data_info c "event_info" with
  | error e => rw [h4] at h; exact absurd h (by simp)
  | ok v4 =>
  rw [h4] at h
  simp only [runStmts, execStmt] at h
  cases h5 : ext.select_runs c with
  | error e => rw [h5] at h; exact absurd h (by simp)
  | ok v5 =>
  rw [h5] at h
  simp only [runStmts, execStmt] at h
  cases h6 : ext.get_df c "180215_1029" "event_info" with
  | error e => rw [h6] at h; exact absurd h (by simp)
  | ok t =>
  rw [h6] at h
  simp only [runStmts, execStmt] at h
  cases h7 : t.plot_scatter "cs1" "cs2" with
  | error e => rw [h7] at h; exact absurd h (by simp)
  | ok p =>
  rw [h7] at h
  simp only [runStmts, execStmt] at h
  cases h8 : ext.event_scatter c "180215_1029" with
  | error e => rw [h8] at h; exact absurd h (by simp)
  | ok v8 =>
  rw [h8] at h
  simp only [runStmts, Except.ok.injEq] at h
  subst h
  rfl

/-- C9: the workflow is a fixed linear three-phase sequence — the phases
of the script's statements are monotone (context selection first, then
discovery, then retrieval and visualization), context selection occurs
exactly once as the first statement, and any successful run performs
exactly the external calls of the source, one per statement, in source
order with no reordering, repetition or interleaving. -/
theorem workflow_linear_three_phases :
    List.Pairwise (fun a b => a.phase ≤ b.phase) script ∧
    script.filter (fun x => x.phase == 0) = [Stmt.mkContext] ∧
    ∀ ext s, runScript ext = .ok s → s.callLog = [ExtCall.ctxCall, .searchCall "cs1",
      .infoCall "corrected_areas", .infoCall "event_info", .runsCall,
      .dfCall "180215_1029" "event_info", .scatterCall "180215_1029"] :=
  ⟨by decide, by decide, fun ext s h => runScript_ok_log ext s h⟩

/-- Witness for C9: the call log of the sample run is exactly the linear
source sequence of external calls. -/
theorem workflow_linear_three_phases_witness :
    sampleFinal.callLog = [ExtCall.ctxCall, .searchCall "cs1", .infoCall "corrected_areas",
      .infoCall "event_info", .runsCall, .dfCall "180215_1029" "event_info",
      .scatterCall "180215_1029"] :=
  workflow_linear_three_phases.2.2 sampleExt sampleFinal (by decide)

/-- C10: the script assigns the run identifier exactly once, to
"180215_1029", and in any successful run both `get_df` and
`event_scatter` are called exactly once, each with that same identifier:
the manual plot and the built-in plot are over the same run. -/
theorem run_id_single_binding :
    script.filter Stmt.isAssign = [Stmt.assignRunId "180215_1029"] ∧
    ∀ ext s, runScript ext = .ok s →
      s.callLog.filter ExtCall.isDf = [ExtCall.dfCall "180215_1029" "event_info"] ∧
      s.callLog.filter ExtCall.isScatter = [ExtCall.scatterCall "180215_1029"] := by
  refine ⟨by decide, fun ext s h => ?_⟩
  rw [runScript_ok_log ext s h]
  exact ⟨rfl, rfl⟩

/-- Witness for C10: in the sample run, the one `get_df` call and the one
`event_scatter` call both received the run identifier "180215_1029". -/
theorem run_id_single_binding_witness :
    sampleFinal.callLog.filter ExtCall.isDf = [ExtCall.dfCall "180215_1029" "event_info"] ∧
    sampleFinal.callLog.filter ExtCall.isScatter = [ExtCall.scatterCall "180215_1029"] :=
  run_id_single_binding.2 sampleExt sampleFinal (by decide)
